import Mathlib

/-!
Shallow embedding of the `subsa` ink! contract (`src/lib.rs`, module `subsa`)
and verification of its specification.

Modelling choices:
* `AccountId` (`[u8; 32]` in ink!) is embedded as `Nat`; the sentinel
  "zero identity" `AccountId::from([0x0; 32])` is `zeroAccount = 0`.
* `Balance` (`u128`) is embedded as `Nat`.  Every subtraction in the source
  is guarded by an explicit `<` check, so `Nat` subtraction agrees with the
  machine subtraction on all guarded paths; arithmetic overflow of additions
  is outside the scope of the properties treated here.
* `ink::storage::Mapping` is read in the source exclusively through
  `get(..).unwrap_or(default)`, so each map is embedded as a total function
  with the corresponding default (`0` for balances, `false` for the two flag
  maps); `Mapping::insert` is a pointwise functional update (`mapInsert`).
* `self.env().caller()` is an environment input and becomes an explicit
  `caller` argument of each operation; `self.env().account_id()` (the asset
  id, equal for every event of one contract instance) is dropped from the
  embedded events.
* Each message returning `Result<(), Error>` is embedded as a function
  `Subsa → args → Except Error Unit × Subsa × List Event`: the returned
  state is the contract storage when the message returns (ink! mutates the
  storage in place, so an early `return Err(..)` keeps the storage as it was
  at that point), and the event list collects the `emit_event` calls made on
  that path, in order.
* `destroy_asset` calls `terminate_contract` on success, which ends the
  contract; the embedding returns the storage unchanged on that path (no
  claim depends on post-destruction state).
-/

/-- Account identities (`AccountId = [u8; 32]` in the source), embedded as `Nat`. -/
abbrev AccountId := Nat

/-- Token amounts (`Balance = u128` in the source), embedded as `Nat`. -/
abbrev Balance := Nat

/-- The sentinel "zero identity" `AccountId::from([0x0; 32])`. -/
def zeroAccount : AccountId := 0

/-- Pointwise update, embedding `Mapping::insert` for maps that are only ever
read through `get(..).unwrap_or(default)`. -/
def mapInsert {β : Type} (m : AccountId → β) (k : AccountId) (v : β) : AccountId → β :=
  fun a => if a = k then v else m a

/-- The error enum of the contract (`enum Error`, src/lib.rs lines 55-69). -/
inductive Error where
  | NotManagerId
  | NotReserveId
  | NotFreezeId
  | NotClawbackId
  | NotOptedIn
  | AlreadyOptedIn
  | NotFrozen
  | NotFreezable
  | AlreadyFrozen
  | FrozenAccount
  | NotEnoughBalance
  | NotAllAssetsOwnedByManager
  | ZeroAmount
deriving DecidableEq, Repr

/-- The events of the contract (src/lib.rs lines 74-170), without the
environment-supplied `asset_id` topic. The Rust field `from` of `Revoke` is
renamed `src` (`from` is a Lean keyword). -/
inductive Event where
  | Creation (asset_name : String) (creator : AccountId) (total : Balance)
  | Transfer (sender receiver : AccountId) (amount : Option Balance)
  | Freeze (account : AccountId) (freeze_id : AccountId) (freeze : Bool)
  | Modify (manager_id reserve_id freeze_id clawback_id : AccountId)
  | OptIn (account : AccountId)
  | OptOut (account : AccountId)
  | Revoke (src : AccountId) (clawback_id : AccountId) (amount : Option Balance)
  | Destruction (destroyer : AccountId)
deriving DecidableEq, Repr

/-- The contract storage (`struct Subsa`, src/lib.rs lines 30-48). -/
structure Subsa where
  creator : AccountId
  asset_name : String
  unit_name : String
  total : Balance
  decimals : Nat
  default_frozen : Bool
  url : String
  metadata_hash : List Nat
  manager_id : AccountId
  reserve_id : AccountId
  freeze_id : AccountId
  clawback_id : AccountId
  balances : AccountId → Balance
  accounts_opted_in : AccountId → Bool
  frozen_holders : AccountId → Bool

/-- The constructor `Subsa::new` (src/lib.rs lines 176-225).  `caller` is
`Self::env().caller()`.  Returns the initial storage together with the
emitted events (the `Creation` event is emitted first, before the maps are
populated). -/
def Subsa.new (caller : AccountId) (asset_name unit_name : String) (total : Balance)
    (decimals : Nat) (default_frozen : Bool) (url : String) (metadata_hash : List Nat)
    (manager reserve freeze clawback : Option AccountId) : Subsa × List Event :=
  let reserve_id := reserve.getD caller
  let accounts_opted_in := mapInsert (fun _ => false) reserve_id true
  let balances := mapInsert (fun _ => 0) reserve_id total
  ({ creator := caller
     asset_name := asset_name
     unit_name := unit_name
     total := total
     decimals := decimals
     default_frozen := default_frozen
     url := url
     metadata_hash := metadata_hash
     manager_id := manager.getD zeroAccount
     reserve_id := reserve_id
     freeze_id := freeze.getD zeroAccount
     clawback_id := clawback.getD zeroAccount
     balances := balances
     accounts_opted_in := accounts_opted_in
     frozen_holders := fun _ => false },
   [Event.Creation asset_name caller total])

/-- `balance_of` (src/lib.rs lines 309-316): read-only, fails with
`NotOptedIn` when the account's opted-in flag is false. -/
def Subsa.balance_of (s : Subsa) (account : AccountId) : Except Error Balance :=
  let opted_in := s.accounts_opted_in account
  if !opted_in then
    .error .NotOptedIn
  else
    .ok (s.balances account)

/-- `is_frozen` (src/lib.rs lines 320-322). -/
def Subsa.is_frozen (s : Subsa) (account : AccountId) : Except Error Bool :=
  .ok (s.frozen_holders account)

/-- `is_opted_in` (src/lib.rs lines 326-328). -/
def Subsa.is_opted_in (s : Subsa) (account : AccountId) : Except Error Bool :=
  .ok (s.accounts_opted_in account)

/-- `is_destroyable` (src/lib.rs lines 333-335). -/
def Subsa.is_destroyable (s : Subsa) : Bool :=
  s.balances s.creator == s.total

/-- `transfer` (src/lib.rs lines 339-370).  Checks the sender's balance, then
the receiver's opt-in flag, then updates the sender's balance and afterwards
the receiver's balance (the receiver read happens after the sender write, as
in the source). -/
def Subsa.transfer (s : Subsa) (caller : AccountId) (receiver : AccountId)
    (amount : Balance) : Except Error Unit × Subsa × List Event :=
  let sender := caller
  let sender_balance := s.balances sender
  if sender_balance < amount then
    (.error .NotEnoughBalance, s, [])
  else
    let receiver_opted_in := s.accounts_opted_in receiver
    if !receiver_opted_in then
      (.error .NotOptedIn, s, [])
    else
      let s := { s with balances := mapInsert s.balances sender (sender_balance - amount) }
      let s := { s with balances := mapInsert s.balances receiver (s.balances receiver + amount) }
      (.ok (), s, [Event.Transfer sender receiver (some amount)])

/-- `opt_in` (src/lib.rs lines 374-393). -/
def Subsa.opt_in (s : Subsa) (caller : AccountId) : Except Error Unit × Subsa × List Event :=
  let caller_opted_in := s.accounts_opted_in caller
  if caller_opted_in then
    (.error .AlreadyOptedIn, s, [])
  else
    let s := { s with accounts_opted_in := mapInsert s.accounts_opted_in caller true }
    (.ok (), s, [Event.OptIn caller])

/-- `opt_out` (src/lib.rs lines 397-416).  The balance is left in place. -/
def Subsa.opt_out (s : Subsa) (caller : AccountId) : Except Error Unit × Subsa × List Event :=
  let caller_opted_in := s.accounts_opted_in caller
  if !caller_opted_in then
    (.error .NotOptedIn, s, [])
  else
    let s := { s with accounts_opted_in := mapInsert s.accounts_opted_in caller false }
    (.ok (), s, [Event.OptOut caller])

/-- `freeze` (src/lib.rs lines 420-451).  Note that the `AlreadyFrozen`
check (lines 434-437) consults only the account's current frozen flag and
not the requested new value `freeze`. -/
def Subsa.freeze (s : Subsa) (caller account : AccountId) (freeze : Bool) :
    Except Error Unit × Subsa × List Event :=
  if !s.default_frozen then
    (.error .NotFreezable, s, [])
  else if caller ≠ s.freeze_id then
    (.error .NotFreezeId, s, [])
  else
    let account_frozen := s.frozen_holders account
    if account_frozen then
      (.error .AlreadyFrozen, s, [])
    else
      let s := { s with frozen_holders := mapInsert s.frozen_holders account freeze }
      (.ok (), s, [Event.Freeze account s.freeze_id freeze])

/-- `modify_asset` (src/lib.rs lines 459-488): manager-gated, then overwrites
all four role fields, substituting the zero identity for omitted roles. -/
def Subsa.modify_asset (s : Subsa) (caller : AccountId)
    (manager reserve freeze clawback : Option AccountId) :
    Except Error Unit × Subsa × List Event :=
  if caller ≠ s.manager_id then
    (.error .NotManagerId, s, [])
  else
    let s := { s with
      manager_id := manager.getD zeroAccount
      reserve_id := reserve.getD zeroAccount
      freeze_id := freeze.getD zeroAccount
      clawback_id := clawback.getD zeroAccount }
    (.ok (), s, [Event.Modify s.manager_id s.reserve_id s.freeze_id s.clawback_id])

/-- `revoke_asset` (src/lib.rs lines 494-536), embedded exactly as written:
after the checks it stores `receiver_balance - amount` at `recovation_target`
(line 520-521) and `receiver_balance + amount` at `receiver` (line 523-525),
both computed from the balance `receiver` had before the call. -/
def Subsa.revoke_asset (s : Subsa) (caller receiver recovation_target : AccountId)
    (amount : Balance) : Except Error Unit × Subsa × List Event :=
  if caller ≠ s.clawback_id then
    (.error .NotClawbackId, s, [])
  else
    let receiver_opted_in := s.accounts_opted_in receiver
    if !receiver_opted_in then
      (.error .NotOptedIn, s, [])
    else
      let receiver_balance := s.balances receiver
      if receiver_balance < amount then
        (.error .NotEnoughBalance, s, [])
      else
        let s := { s with balances := mapInsert s.balances recovation_target (receiver_balance - amount) }
        let s := { s with balances := mapInsert s.balances receiver (receiver_balance + amount) }
        (.ok (), s, [Event.Revoke receiver s.clawback_id (some amount)])

/-- `destroy_asset` (src/lib.rs lines 542-564).  On success the source emits
`Destruction` and calls `terminate_contract`; the embedding returns the
storage unchanged on that path. -/
def Subsa.destroy_asset (s : Subsa) (caller : AccountId) :
    Except Error Unit × Subsa × List Event :=
  if caller ≠ s.manager_id then
    (.error .NotManagerId, s, [])
  else
    let manager_balance := s.balances s.manager_id
    if manager_balance ≠ s.total then
      (.error .NotAllAssetsOwnedByManager, s, [])
    else
      (.ok (), s, [Event.Destruction s.manager_id])

/-- One invocation of a mutating message, with the caller the environment
supplies for that invocation. -/
inductive Op where
  | opt_in (caller : AccountId)
  | opt_out (caller : AccountId)
  | transfer (caller receiver : AccountId) (amount : Balance)
  | freeze (caller account : AccountId) (flag : Bool)
  | modify_asset (caller : AccountId) (manager reserve freeze clawback : Option AccountId)
  | revoke_asset (caller receiver recovation_target : AccountId) (amount : Balance)
  | destroy_asset (caller : AccountId)
deriving DecidableEq, Repr

/-- Dispatch one mutating message against the storage. -/
def applyOp (s : Subsa) : Op → Except Error Unit × Subsa × List Event
  | .opt_in caller => s.opt_in caller
  | .opt_out caller => s.opt_out caller
  | .transfer caller receiver amount => s.transfer caller receiver amount
  | .freeze caller account flag => s.freeze caller account flag
  | .modify_asset caller manager reserve freeze clawback =>
      s.modify_asset caller manager reserve freeze clawback
  | .revoke_asset caller receiver recovation_target amount =>
      s.revoke_asset caller receiver recovation_target amount
  | .destroy_asset caller => s.destroy_asset caller

/-- Run a sequence of mutating messages, keeping the storage each message
leaves behind (failed messages leave it unchanged). -/
def runOps (s : Subsa) : List Op → Subsa
  | [] => s
  | op :: rest => runOps (applyOp s op).2.1 rest

/-- Sum of the balances of accounts `0, 1, ..., n-1`.  Since every account
not touched by any operation keeps balance `0`, the sum of all account
balances equals `sumBalances s n` for any `n` above every touched account. -/
def sumBalances (s : Subsa) (n : Nat) : Balance :=
  ((List.range n).map s.balances).sum

/-- Concrete asset used by witnesses and counterexamples: constructed by
caller `1` with total `1000`, `default_frozen = true`, manager, freeze and
clawback all `1`, reserve omitted (so it defaults to the caller `1`). -/
def exAsset : Subsa :=
  (Subsa.new 1 "Test subsa" "TSSA" 1000 10 true "www.test.com" [0, 0, 0, 0]
    (some 1) none (some 1) (some 1)).1

/-- `exAsset` after account `2` opts in. -/
def exAssetOpted2 : Subsa := (exAsset.opt_in 2).2.1

/-- `exAssetOpted2` after the freeze role `1` freezes account `2`. -/
def exAssetFrozen2 : Subsa := (exAssetOpted2.freeze 1 2 true).2.1

/-- `exAssetOpted2` after account `1` opts out (keeping its balance `1000`). -/
def exAssetOut1 : Subsa := (exAssetOpted2.opt_out 1).2.1

/-- State for the `revoke_asset` effect counterexample: `exAsset` after
`2` and `3` opt in and caller `1` transfers `10` to `2` and `5` to `3`
(balances: `1 ↦ 985`, `2 ↦ 10`, `3 ↦ 5`). -/
def exRevokePre : Subsa :=
  runOps exAsset [Op.opt_in 2, Op.opt_in 3, Op.transfer 1 2 10, Op.transfer 1 3 5]

/-- Claim C1 (code-bug evaluation): conservation of supply fails on
`revoke_asset`.  On `exAssetOpted2` (balances `1 ↦ 1000`, all others `0`,
so the sum of all balances is `1000 = total`), the clawback role `1`
successfully revokes `400` from receiver `1` towards target `2`, and the sum
of all balances afterwards is `2000 ≠ total`: the source stores
`receiver_balance - amount` at the target (discarding the target's previous
balance) and `receiver_balance + amount` at the receiver. -/
theorem revoke_asset_breaks_conservation :
    sumBalances exAssetOpted2 3 = exAssetOpted2.total ∧
    (exAssetOpted2.revoke_asset 1 1 2 400).1 = .ok () ∧
    sumBalances (exAssetOpted2.revoke_asset 1 1 2 400).2.1 3 = 2000 ∧
    sumBalances (exAssetOpted2.revoke_asset 1 1 2 400).2.1 3 ≠
      (exAssetOpted2.revoke_asset 1 1 2 400).2.1.total :=
  ⟨rfl, rfl, rfl, by decide⟩

/-- Claim C2 (code-bug evaluation): the effect of `revoke_asset` is not
"deduct `amount` from `receiver`, credit `amount` to `revocation_target`".
On `exRevokePre` (receiver `2` holds `10`, target `3` holds `5`), revoking
`4` from `2` towards `3` succeeds but leaves `2` with `14` (not `10 - 4`)
and `3` with `6` (not `5 + 4`). -/
theorem revoke_asset_miscredits_balances :
    exRevokePre.balances 2 = 10 ∧ exRevokePre.balances 3 = 5 ∧
    (exRevokePre.revoke_asset 1 2 3 4).1 = .ok () ∧
    (exRevokePre.revoke_asset 1 2 3 4).2.1.balances 2 = 14 ∧
    (exRevokePre.revoke_asset 1 2 3 4).2.1.balances 3 = 6 ∧
    (exRevokePre.revoke_asset 1 2 3 4).2.1.balances 2 ≠ 10 - 4 ∧
    (exRevokePre.revoke_asset 1 2 3 4).2.1.balances 3 ≠ 5 + 4 :=
  ⟨rfl, rfl, rfl, rfl, rfl, by decide, by decide⟩

/-- Claim C3 (counterexample): `freeze(account, false)` on a frozen account
does not succeed and clear the flag; it fails with `AlreadyFrozen` (the
source checks only the current flag, never the requested value), and the
flag stays `true`.  Here `default_frozen = true`, the caller `1` is the
freeze role, account `2` is frozen, and the requested value `false` differs
from the current flag. -/
theorem freeze_unfreeze_counterexample :
    exAssetFrozen2.default_frozen = true ∧
    exAssetFrozen2.freeze_id = 1 ∧
    exAssetFrozen2.frozen_holders 2 = true ∧
    (exAssetFrozen2.freeze 1 2 false).1 = .error .AlreadyFrozen ∧
    (exAssetFrozen2.freeze 1 2 false).2.1.frozen_holders 2 = true :=
  ⟨rfl, rfl, rfl, rfl, rfl⟩

/-- Claim C3 (amended): with `default_frozen = true` and the caller equal to
the freeze role, `freeze(account, freeze_flag)` fails with `AlreadyFrozen`
exactly when the account's current frozen flag is `true` — the requested
value `freeze_flag` is not consulted; when the account is not currently
frozen the call succeeds and sets the flag to `freeze_flag`. -/
theorem freeze_already_frozen_iff (s : Subsa) (caller account : AccountId) (flag : Bool)
    (hdf : s.default_frozen = true) (hc : caller = s.freeze_id) :
    ((s.freeze caller account flag).1 = .error .AlreadyFrozen ↔
      s.frozen_holders account = true) ∧
    (s.frozen_holders account = false →
      (s.freeze caller account flag).1 = .ok () ∧
      (s.freeze caller account flag).2.1.frozen_holders account = flag) := by
  cases h : s.frozen_holders account <;>
    simp [Subsa.freeze, hdf, hc, h, mapInsert]

/-- Witness for the amended claim C3: on `exAssetOpted2` (account `2` not
frozen) the freeze role `1` calling `freeze(2, true)` does not get
`AlreadyFrozen`, succeeds, and sets the flag. -/
theorem freeze_already_frozen_iff_witness :
    exAssetOpted2.default_frozen = true ∧
    (((exAssetOpted2.freeze 1 2 true).1 = .error .AlreadyFrozen ↔
        exAssetOpted2.frozen_holders 2 = true) ∧
      (exAssetOpted2.frozen_holders 2 = false →
        (exAssetOpted2.freeze 1 2 true).1 = .ok () ∧
        (exAssetOpted2.freeze 1 2 true).2.1.frozen_holders 2 = true)) :=
  ⟨rfl, freeze_already_frozen_iff exAssetOpted2 1 2 true rfl rfl⟩

/-- Claim C4 (counterexample): `transfer(account, amount)` with a
not-opted-in receiver does not fail with `NotOptedIn` for *every* caller and
amount: the balance check comes first, so caller `3` (balance `0`) sending
`1` to the not-opted-in account `2` gets `NotEnoughBalance` instead. -/
theorem transfer_not_opted_in_counterexample :
    exAsset.accounts_opted_in 2 = false ∧
    (exAsset.transfer 3 2 1).1 = .error .NotEnoughBalance ∧
    Error.NotEnoughBalance ≠ Error.NotOptedIn :=
  ⟨rfl, rfl, by decide⟩

/-- Claim C4 (amended): for every account whose opted-in flag is false,
`balance_of` fails with `NotOptedIn`; `transfer` to that account fails with
`NotOptedIn` for every caller whose balance is at least `amount` (callers
with smaller balances fail earlier with `NotEnoughBalance`); and
`revoke_asset` from that account fails with `NotOptedIn` for the clawback
caller and every amount and target. -/
theorem opt_in_gating (s : Subsa) (account : AccountId)
    (h : s.accounts_opted_in account = false) :
    s.balance_of account = .error .NotOptedIn ∧
    (∀ caller amount, amount ≤ s.balances caller →
      (s.transfer caller account amount).1 = .error .NotOptedIn) ∧
    (∀ recovation_target amount,
      (s.revoke_asset s.clawback_id account recovation_target amount).1 =
        .error .NotOptedIn) := by
  refine ⟨?_, ?_, ?_⟩
  · simp [Subsa.balance_of, h]
  · intro caller amount hle
    simp [Subsa.transfer, Nat.not_lt.mpr hle, h]
  · intro recovation_target amount
    simp [Subsa.revoke_asset, h]

/-- Witness for the amended claim C4 at account `2` of `exAsset` (not opted
in): `balance_of`, a funded `transfer`, and a clawback `revoke_asset` all
fail with `NotOptedIn`. -/
theorem opt_in_gating_witness :
    exAsset.accounts_opted_in 2 = false ∧
    exAsset.balance_of 2 = .error .NotOptedIn ∧
    (exAsset.transfer 1 2 400).1 = .error .NotOptedIn ∧
    (exAsset.revoke_asset exAsset.clawback_id 2 3 7).1 = .error .NotOptedIn :=
  ⟨rfl, (opt_in_gating exAsset 2 rfl).1,
    (opt_in_gating exAsset 2 rfl).2.1 1 400 (by decide),
    (opt_in_gating exAsset 2 rfl).2.2 3 7⟩

/-- Claim C9: `transfer` never consults the caller's opted-in flag: whenever
the caller's balance is at least `amount` and the receiver is opted in, the
transfer succeeds, even with the caller's own opted-in flag false. -/
theorem transfer_ignores_sender_opt_in (s : Subsa) (caller receiver : AccountId)
    (amount : Balance) (hc : s.accounts_opted_in caller = false)
    (hb : amount ≤ s.balances caller) (hr : s.accounts_opted_in receiver = true) :
    (s.transfer caller receiver amount).1 = .ok () := by
  simp [Subsa.transfer, Nat.not_lt.mpr hb, hr]

/-- Witness for claim C9: on `exAssetOut1`, account `1` has opted out but
still holds `1000`, and its transfer of `400` to the opted-in account `2`
succeeds. -/
theorem transfer_ignores_sender_opt_in_witness :
    exAssetOut1.accounts_opted_in 1 = false ∧
    400 ≤ exAssetOut1.balances 1 ∧
    exAssetOut1.accounts_opted_in 2 = true ∧
    (exAssetOut1.transfer 1 2 400).1 = .ok () :=
  ⟨rfl, by decide, rfl,
    transfer_ignores_sender_opt_in exAssetOut1 1 2 400 rfl (by decide) rfl⟩

/-- Claim C10: self-transfer is the identity on balances: an opted-in caller
with balance at least `amount` transferring `amount` to itself succeeds and
leaves the whole balances map unchanged (the receiver credit reads the
balance the sender write just stored). -/
theorem self_transfer_identity (s : Subsa) (caller : AccountId) (amount : Balance)
    (hin : s.accounts_opted_in caller = true) (hb : amount ≤ s.balances caller) :
    (s.transfer caller caller amount).1 = .ok () ∧
    (s.transfer caller caller amount).2.1.balances = s.balances := by
  have hnlt : ¬ s.balances caller < amount := Nat.not_lt.mpr hb
  constructor
  · simp [Subsa.transfer, hnlt, hin]
  · funext a
    simp only [Subsa.transfer, hnlt, hin]
    by_cases hac : a = caller
    · subst hac
      simp [mapInsert, Nat.sub_add_cancel hb]
    · simp [mapInsert, hac]

/-- Witness for claim C10: account `1` of `exAsset` (opted in, balance
`1000`) transfers `300` to itself; the call succeeds and the balances map is
unchanged. -/
theorem self_transfer_identity_witness :
    exAsset.accounts_opted_in 1 = true ∧
    300 ≤ exAsset.balances 1 ∧
    (exAsset.transfer 1 1 300).1 = .ok () ∧
    (exAsset.transfer 1 1 300).2.1.balances = exAsset.balances :=
  ⟨rfl, by decide, (self_transfer_identity exAsset 1 300 rfl (by decide)).1,
    (self_transfer_identity exAsset 1 300 rfl (by decide)).2⟩

/-- Claim C5: atomicity on failure — every mutating message that returns an
error leaves the storage exactly as it was and emits no event (every error
return in the source precedes every write and every `emit_event`). -/
theorem error_atomicity (s : Subsa) (op : Op) (e : Error)
    (h : (applyOp s op).1 = .error e) :
    (applyOp s op).2.1 = s ∧ (applyOp s op).2.2 = [] := by
  cases op <;>
    simp only [applyOp, Subsa.opt_in, Subsa.opt_out, Subsa.transfer, Subsa.freeze,
      Subsa.modify_asset, Subsa.revoke_asset, Subsa.destroy_asset] at h ⊢ <;>
    split_ifs at h ⊢ <;> simp_all

/-- Witness for claim C5: `opt_out` by the never-opted-in account `5` on
`exAsset` fails with `NotOptedIn`, the storage is unchanged and no event is
emitted. -/
theorem error_atomicity_witness :
    (applyOp exAsset (Op.opt_out 5)).1 = .error .NotOptedIn ∧
    (applyOp exAsset (Op.opt_out 5)).2.1 = exAsset ∧
    (applyOp exAsset (Op.opt_out 5)).2.2 = [] :=
  ⟨rfl, (error_atomicity exAsset (Op.opt_out 5) .NotOptedIn rfl).1,
    (error_atomicity exAsset (Op.opt_out 5) .NotOptedIn rfl).2⟩

/-- Claim C6: `modify_asset` fails with `NotManagerId` for every caller
other than the manager, leaving the storage (role table included) unchanged;
for the manager it succeeds, overwrites all four role fields with the
supplied values (zero identity for omitted roles) and changes no other
field. -/
theorem modify_asset_spec (s : Subsa) (caller : AccountId)
    (manager reserve freeze clawback : Option AccountId) :
    (caller ≠ s.manager_id →
      s.modify_asset caller manager reserve freeze clawback =
        (.error .NotManagerId, s, [])) ∧
    (caller = s.manager_id →
      (s.modify_asset caller manager reserve freeze clawback).1 = .ok () ∧
      ((s.modify_asset caller manager reserve freeze clawback).2.1.manager_id =
          manager.getD zeroAccount ∧
        (s.modify_asset caller manager reserve freeze clawback).2.1.reserve_id =
          reserve.getD zeroAccount ∧
        (s.modify_asset caller manager reserve freeze clawback).2.1.freeze_id =
          freeze.getD zeroAccount ∧
        (s.modify_asset caller manager reserve freeze clawback).2.1.clawback_id =
          clawback.getD zeroAccount) ∧
      ((s.modify_asset caller manager reserve freeze clawback).2.1.creator = s.creator ∧
        (s.modify_asset caller manager reserve freeze clawback).2.1.asset_name = s.asset_name ∧
        (s.modify_asset caller manager reserve freeze clawback).2.1.unit_name = s.unit_name ∧
        (s.modify_asset caller manager reserve freeze clawback).2.1.total = s.total ∧
        (s.modify_asset caller manager reserve freeze clawback).2.1.decimals = s.decimals ∧
        (s.modify_asset caller manager reserve freeze clawback).2.1.default_frozen =
          s.default_frozen ∧
        (s.modify_asset caller manager reserve freeze clawback).2.1.url = s.url ∧
        (s.modify_asset caller manager reserve freeze clawback).2.1.metadata_hash =
          s.metadata_hash ∧
        (s.modify_asset caller manager reserve freeze clawback).2.1.balances = s.balances ∧
        (s.modify_asset caller manager reserve freeze clawback).2.1.accounts_opted_in =
          s.accounts_opted_in ∧
        (s.modify_asset caller manager reserve freeze clawback).2.1.frozen_holders =
          s.frozen_holders)) := by
  constructor
  · intro hne
    simp [Subsa.modify_asset, hne]
  · intro heq
    simp [Subsa.modify_asset, heq]

/-- Witness for claim C6 on `exAsset` (manager `1`): caller `2` gets
`NotManagerId` with nothing changed; caller `1` supplying `manager = 7`,
`freeze = 8` and omitting the other two roles ends with the role table
`(7, 0, 8, 0)` and every other field untouched. -/
theorem modify_asset_spec_witness :
    exAsset.modify_asset 2 (some 7) none (some 8) none =
      (.error .NotManagerId, exAsset, []) ∧
    ((exAsset.modify_asset 1 (some 7) none (some 8) none).1 = .ok () ∧
      ((exAsset.modify_asset 1 (some 7) none (some 8) none).2.1.manager_id = 7 ∧
        (exAsset.modify_asset 1 (some 7) none (some 8) none).2.1.reserve_id = 0 ∧
        (exAsset.modify_asset 1 (some 7) none (some 8) none).2.1.freeze_id = 8 ∧
        (exAsset.modify_asset 1 (some 7) none (some 8) none).2.1.clawback_id = 0) ∧
      ((exAsset.modify_asset 1 (some 7) none (some 8) none).2.1.creator = exAsset.creator ∧
        (exAsset.modify_asset 1 (some 7) none (some 8) none).2.1.asset_name = exAsset.asset_name ∧
        (exAsset.modify_asset 1 (some 7) none (some 8) none).2.1.unit_name = exAsset.unit_name ∧
        (exAsset.modify_asset 1 (some 7) none (some 8) none).2.1.total = exAsset.total ∧
        (exAsset.modify_asset 1 (some 7) none (some 8) none).2.1.decimals = exAsset.decimals ∧
        (exAsset.modify_asset 1 (some 7) none (some 8) none).2.1.default_frozen =
          exAsset.default_frozen ∧
        (exAsset.modify_asset 1 (some 7) none (some 8) none).2.1.url = exAsset.url ∧
        (exAsset.modify_asset 1 (some 7) none (some 8) none).2.1.metadata_hash =
          exAsset.metadata_hash ∧
        (exAsset.modify_asset 1 (some 7) none (some 8) none).2.1.balances = exAsset.balances ∧
        (exAsset.modify_asset 1 (some 7) none (some 8) none).2.1.accounts_opted_in =
          exAsset.accounts_opted_in ∧
        (exAsset.modify_asset 1 (some 7) none (some 8) none).2.1.frozen_holders =
          exAsset.frozen_holders)) :=
  ⟨(modify_asset_spec exAsset 2 (some 7) none (some 8) none).1 (by decide),
    (modify_asset_spec exAsset 1 (some 7) none (some 8) none).2 rfl⟩

/-- Claim C7: for every set of construction parameters the reserve role
defaults to the constructing caller when omitted, and the account holding
the reserve role ends construction opted in with balance exactly `total`. -/
theorem construction_reserve_spec (caller : AccountId) (asset_name unit_name : String)
    (total : Balance) (decimals : Nat) (default_frozen : Bool) (url : String)
    (metadata_hash : List Nat) (manager reserve freeze clawback : Option AccountId) :
    (reserve = none →
      (Subsa.new caller asset_name unit_name total decimals default_frozen url
        metadata_hash manager reserve freeze clawback).1.reserve_id = caller) ∧
    (Subsa.new caller asset_name unit_name total decimals default_frozen url
        metadata_hash manager reserve freeze clawback).1.accounts_opted_in
      (Subsa.new caller asset_name unit_name total decimals default_frozen url
        metadata_hash manager reserve freeze clawback).1.reserve_id = true ∧
    (Subsa.new caller asset_name unit_name total decimals default_frozen url
        metadata_hash manager reserve freeze clawback).1.balances
      (Subsa.new caller asset_name unit_name total decimals default_frozen url
        metadata_hash manager reserve freeze clawback).1.reserve_id = total := by
  refine ⟨?_, ?_, ?_⟩
  · intro h
    simp [Subsa.new, h]
  · simp [Subsa.new, mapInsert]
  · simp [Subsa.new, mapInsert]

/-- Witness for claim C7: the spec scenario — constructing with caller `1`,
`total = 1000`, `default_frozen = true` and no explicit reserve leaves the
constructing caller `1` as reserve, opted in, with balance `1000`. -/
theorem construction_reserve_spec_witness :
    (Subsa.new 1 "Test subsa" "TSSA" 1000 10 true "www.test.com" [0, 0, 0, 0]
      none none none none).1.reserve_id = 1 ∧
    (Subsa.new 1 "Test subsa" "TSSA" 1000 10 true "www.test.com" [0, 0, 0, 0]
      none none none none).1.accounts_opted_in 1 = true ∧
    (Subsa.new 1 "Test subsa" "TSSA" 1000 10 true "www.test.com" [0, 0, 0, 0]
      none none none none).1.balances 1 = 1000 :=
  ⟨(construction_reserve_spec 1 "Test subsa" "TSSA" 1000 10 true "www.test.com"
      [0, 0, 0, 0] none none none none).1 rfl,
    (construction_reserve_spec 1 "Test subsa" "TSSA" 1000 10 true "www.test.com"
      [0, 0, 0, 0] none none none none).2.1,
    (construction_reserve_spec 1 "Test subsa" "TSSA" 1000 10 true "www.test.com"
      [0, 0, 0, 0] none none none none).2.2⟩

/-- One mutating message never turns an account's frozen flag from `true` to
`false`: `freeze` fails with `AlreadyFrozen` on a currently frozen account,
and no other message writes the frozen map. -/
theorem applyOp_frozen_mono (s : Subsa) (op : Op) (a : AccountId)
    (h : s.frozen_holders a = true) :
    (applyOp s op).2.1.frozen_holders a = true := by
  cases op with
  | opt_in caller =>
      simp only [applyOp, Subsa.opt_in]
      split_ifs <;> exact h
  | opt_out caller =>
      simp only [applyOp, Subsa.opt_out]
      split_ifs <;> exact h
  | transfer caller receiver amount =>
      simp only [applyOp, Subsa.transfer]
      split_ifs <;> exact h
  | freeze caller account flag =>
      simp only [applyOp, Subsa.freeze]
      split_ifs with h1 h2 h3
      · exact h
      · exact h
      · exact h
      · simp only [mapInsert]
        by_cases hacc : a = account
        · subst hacc
          simp_all
        · simp [hacc, h]
  | modify_asset caller manager reserve freeze clawback =>
      simp only [applyOp, Subsa.modify_asset]
      split_ifs <;> exact h
  | revoke_asset caller receiver recovation_target amount =>
      simp only [applyOp, Subsa.revoke_asset]
      split_ifs <;> exact h
  | destroy_asset caller =>
      simp only [applyOp, Subsa.destroy_asset]
      split_ifs <;> exact h

/-- Claim C8: frozen is never cleared — after any sequence of mutating
messages applied to a state where an account's frozen flag is `true`, the
flag is still `true`. -/
theorem frozen_never_cleared (s : Subsa) (a : AccountId) (ops : List Op)
    (h : s.frozen_holders a = true) :
    (runOps s ops).frozen_holders a = true := by
  induction ops generalizing s with
  | nil => exact h
  | cons op rest ih => exact ih (applyOp s op).2.1 (applyOp_frozen_mono s op a h)

/-- Witness for claim C8: account `2` of `exAssetFrozen2` is frozen and
stays frozen across an unfreeze attempt, a transfer, an opt-out, a role
reshuffle and a revocation. -/
theorem frozen_never_cleared_witness :
    exAssetFrozen2.frozen_holders 2 = true ∧
    (runOps exAssetFrozen2
      [Op.freeze 1 2 false, Op.transfer 1 2 100, Op.opt_out 2,
        Op.modify_asset 1 (some 1) (some 1) (some 1) (some 1),
        Op.revoke_asset 1 1 2 10]).frozen_holders 2 = true :=
  ⟨rfl, frozen_never_cleared exAssetFrozen2 2
    [Op.freeze 1 2 false, Op.transfer 1 2 100, Op.opt_out 2,
      Op.modify_asset 1 (some 1) (some 1) (some 1) (some 1),
      Op.revoke_asset 1 1 2 10] rfl⟩
